import Mathlib

/-!
Verification of `qutebrowser/misc/fifo.py`: a FIFO-backed command channel.

The module is embedded shallowly:

* Byte/text content is `List Char`.
* The reader state of `QtFIFOReader` tracks the notifier-enabled flag and
  whether the Python file object for the FIFO has been closed.
* Draining (`for line in self._fifo`, with `self._fifo` the text-mode
  wrapper of a descriptor opened `O_RDWR | O_NONBLOCK`) follows CPython's
  behavior for that construction: text mode uses universal newlines, so
  `'\n'`, `'\r'` and `'\r\n'` all end a line (translated to `'\n'` in the
  yielded text), and when the non-blocking read hits EAGAIN mid-line,
  `readline` returns the unterminated tail as a final line, so the drain
  emits the partial line immediately and retains nothing across notifier
  callbacks.  A pending `'\r'` at the end of the available bytes is
  likewise flushed as a line break.
* Fallible Python code is `Except PyErr`.  An uncaught exception is an
  `Except.error` result of the embedded function.  Iterating a closed
  Python file object raises `ValueError`, so the drain of a closed reader
  is an error.
-/

namespace Fifo

/-- The Python exceptions the module can raise or observe.  `osError`
stands for `OSError` (from `os.mkfifo`, `os.open`, `os.remove`),
`valueError` for the `ValueError` raised when iterating a closed file
object, `noTarget` for the registry's no-window failure, and
`unboundLocal` for the `UnboundLocalError` raised when `run_command`
uses the never-assigned local `window`. -/
inductive PyErr where
  | osError
  | valueError
  | noTarget
  | unboundLocal
  deriving DecidableEq, Repr

/-- A character counted as a line terminator by `line.rstrip('\r\n')`. -/
def isTermChar (c : Char) : Bool := c == '\r' || c == '\n'

/-- Python `line.rstrip('\r\n')` on a list of characters: remove every
trailing `'\r'` or `'\n'` character, keep everything else unchanged. -/
def rstripCRLF (s : List Char) : List Char :=
  (s.reverse.dropWhile isTermChar).reverse

/-- The lines one `for line in self._fifo` drain pass yields for the
currently available bytes, per CPython's text-mode iteration over the
non-blocking descriptor:

* universal newlines: `'\n'`, `'\r\n'` and lone `'\r'` each end a line,
  and the terminator is translated to `'\n'` in the yielded line;
* when the available bytes run out (the read would block), a nonempty
  unterminated tail is returned as a final line with no terminator,
  and a pending trailing `'\r'` counts as a line break;
* nothing is carried over to a later drain pass.

`cur` is the content of the line being accumulated. -/
def pyDrain (cur : List Char) : List Char → List (List Char)
  | [] => if cur = [] then [] else [cur]
  | '\n' :: cs => (cur ++ ['\n']) :: pyDrain [] cs
  | '\r' :: '\n' :: cs => (cur ++ ['\n']) :: pyDrain [] cs
  | '\r' :: cs => (cur ++ ['\n']) :: pyDrain [] cs
  | c :: cs => pyDrain (cur ++ [c]) cs

/-- State of a `QtFIFOReader`: `notifierEnabled` mirrors
`self._notifier.setEnabled(...)` and `fifoClosed` records whether
`self._fifo.close()` has run.  No read content survives a drain pass, so
there is no cross-drain buffer. -/
structure QtFIFOReader where
  notifierEnabled : Bool
  fifoClosed : Bool
  deriving DecidableEq, Repr

/-- `QtFIFOReader.read_line`: disable the notifier, drain every line the
file iteration yields for the currently available bytes (emitting
`line.rstrip('\r\n')` for each via `got_line`), re-enable the notifier.
`avail` is the newly readable input.  Iterating a closed file object
raises `ValueError`.  Returns the new reader state and the emitted
`CommandLine` strings in order. -/
def QtFIFOReader.read_line (st : QtFIFOReader) (avail : List Char) :
    Except PyErr (QtFIFOReader × List (List Char)) :=
  if st.fifoClosed then
    Except.error PyErr.valueError
  else
    Except.ok (⟨true, false⟩, (pyDrain [] avail).map rstripCRLF)

/-- `QtFIFOReader.cleanup`: disable the notifier, perform one final drain
(emitting each yielded line stripped, exactly like `read_line`), then
close the file object.  Iterating an already-closed file object raises
`ValueError`. -/
def QtFIFOReader.cleanup (st : QtFIFOReader) (avail : List Char) :
    Except PyErr (QtFIFOReader × List (List Char)) :=
  if st.fifoClosed then
    Except.error PyErr.valueError
  else
    Except.ok (⟨false, true⟩, (pyDrain [] avail).map rstripCRLF)

/-- Result of a completed (exception-free) `init` run:
whether a reader object was constructed and attached to the `got_line`
handlers, how many errors were reported through `message.error`, and
whether the FIFO path exists on disk afterwards. -/
structure InitResult where
  readerAttached : Bool
  errorsReported : Nat
  fifoFileExists : Bool
  deriving DecidableEq, Repr

/-- `init`: if the FIFO path pre-exists, try `os.remove` (an `OSError`
there is caught and reported); then try `os.mkfifo` (an `OSError` there
is caught and reported; `mkfifo` fails when the path still exists or
when `mkfifoFault` models an extrinsic failure such as a missing or
unwritable runtime directory).  Afterwards `QtFIFOReader(filepath)` is
constructed unconditionally; its `os.open` raises an uncaught `OSError`
when the path does not exist, and that exception escapes `init`.

Inputs model the environment: `preexisting` is `os.path.exists(filepath)`
at entry, `removeFault` makes `os.remove` raise, `mkfifoFault` makes
`os.mkfifo` raise for a reason other than the path existing. -/
def init (preexisting removeFault mkfifoFault : Bool) :
    Except PyErr InitResult :=
  let existsAfterRemove := preexisting && removeFault
  let removeReports := if preexisting && removeFault then 1 else 0
  let mkfifoOk := !existsAfterRemove && !mkfifoFault
  let reports := removeReports + (if mkfifoOk then 0 else 1)
  if existsAfterRemove || mkfifoOk then
    Except.ok ⟨true, reports, true⟩
  else
    Except.error PyErr.osError

/-- Result of a completed (exception-free) module-level `cleanup` run. -/
structure CleanupResult where
  readerState : QtFIFOReader
  fifoFileExists : Bool
  errorsReported : Nat
  emitted : List (List Char)
  deriving DecidableEq, Repr

/-- Module-level `cleanup`: on a non-POSIX platform return immediately
(no resource action at all); otherwise run `reader.cleanup()` (whose
`ValueError` on a closed file object propagates), then `os.remove` the
FIFO path with any `OSError` — in particular a missing file — swallowed
by `except OSError: pass`, with no report.  `fifoFileExists` is whether
the FIFO path exists on disk at entry. -/
def cleanup (posix : Bool) (fifoFileExists : Bool) (st : QtFIFOReader)
    (avail : List Char) : Except PyErr CleanupResult :=
  if !posix then
    Except.ok ⟨st, fifoFileExists, 0, []⟩
  else
    match st.cleanup avail with
    | Except.error e => Except.error e
    | Except.ok (st2, lines) => Except.ok ⟨st2, false, 0, lines⟩

/-- The window registry consulted by `run_command`, holding the window id
(if any) each lookup mode would return. -/
structure Objreg where
  lastFocused : Option Nat
  lastOpened : Option Nat
  lastVisible : Option Nat
  deriving DecidableEq, Repr

/-- Modelled from the spec: `objreg.last_focused_window` lives outside the
given source file; per the spec each registry lookup returns an
`ExecutionTarget` "or fail[s] if none exists", the failure being the
`NoTargetError` of the error taxonomy. -/
def last_focused_window (reg : Objreg) : Except PyErr Nat :=
  match reg.lastFocused with
  | some w => Except.ok w
  | none => Except.error PyErr.noTarget

/-- Modelled from the spec: `objreg.last_window` (the last-opened lookup),
outside the given source file; returns a target or fails with the
no-target error. -/
def last_window (reg : Objreg) : Except PyErr Nat :=
  match reg.lastOpened with
  | some w => Except.ok w
  | none => Except.error PyErr.noTarget

/-- Modelled from the spec: `objreg.last_visible_window`, outside the
given source file; returns a target or fails with the no-target error. -/
def last_visible_window (reg : Objreg) : Except PyErr Nat :=
  match reg.lastVisible with
  | some w => Except.ok w
  | none => Except.error PyErr.noTarget

/-- `run_command`: read the `new-instance-open-target.window` mode fresh,
resolve the window with the matching registry lookup, then invoke
`runners.CommandRunner(window.win_id).run_safely(cmd)`.  The returned
list collects the execution-capability invocations `(win_id, cmd)` of
the call (one on success).  When the mode matches none of the three
recognized values, the local `window` was never assigned and the final
line raises `UnboundLocalError`, so no invocation happens. -/
def run_command (winMode : String) (reg : Objreg) (cmd : List Char) :
    Except PyErr (List (Nat × List Char)) :=
  if winMode = "last-focused" then
    (last_focused_window reg).map (fun w => [(w, cmd)])
  else if winMode = "last-opened" then
    (last_window reg).map (fun w => [(w, cmd)])
  else if winMode = "last-visible" then
    (last_visible_window reg).map (fun w => [(w, cmd)])
  else
    Except.error PyErr.unboundLocal

/-- Modelled from the spec: the signal plumbing that feeds each emitted
`CommandLine` to `run_command` is outside the given source file; per the
spec a failed dispatch "drops the single offending command with a
notice to the user, leaving the channel open for subsequent commands".
Returns all execution-capability invocations plus the number of dropped
(reported) commands. -/
def dispatchAll (winMode : String) (reg : Objreg) :
    List (List Char) → List (Nat × List Char) × Nat
  | [] => ([], 0)
  | cmd :: rest =>
    match run_command winMode reg cmd with
    | Except.ok invs =>
        (invs ++ (dispatchAll winMode reg rest).1,
         (dispatchAll winMode reg rest).2)
    | Except.error _ =>
        ((dispatchAll winMode reg rest).1,
         (dispatchAll winMode reg rest).2 + 1)

/-- Modelled from the spec: the startup wiring that calls `init` is
outside the given source file; per the spec the platform guard disables
the whole channel on platforms lacking named-pipe support, checked once
at startup.  On POSIX it behaves exactly as `init`. -/
def startupChannel (posix : Bool) (preexisting removeFault mkfifoFault : Bool) :
    Except PyErr InitResult :=
  if posix then
    init preexisting removeFault mkfifoFault
  else
    Except.ok ⟨false, 0, false⟩

/-! ### Helper lemmas about stripping -/

theorem head_dropWhile_not_mem (p : Char → Bool) :
    ∀ (l : List Char) (c : Char), (l.dropWhile p).head? = some c → p c = false := by
  intro l
  induction l with
  | nil => intro c h; simp [List.dropWhile] at h
  | cons a as ih =>
    intro c h
    by_cases hp : p a
    · rw [List.dropWhile_cons_of_pos hp] at h
      exact ih c h
    · rw [List.dropWhile_cons_of_neg hp] at h
      simp at h
      rw [← h]
      exact Bool.of_not_eq_true hp

theorem rstripCRLF_last_not_term (s : List Char) (c : Char)
    (h : (rstripCRLF s).getLast? = some c) : isTermChar c = false := by
  unfold rstripCRLF at h
  rw [List.getLast?_reverse] at h
  exact head_dropWhile_not_mem isTermChar s.reverse c h

theorem rstripCRLF_trail (s : List Char) :
    rstripCRLF s ++ (s.reverse.takeWhile isTermChar).reverse = s ∧
      ∀ c ∈ (s.reverse.takeWhile isTermChar).reverse, isTermChar c = true := by
  constructor
  · unfold rstripCRLF
    rw [← List.reverse_append, List.takeWhile_append_dropWhile,
      List.reverse_reverse]
  · intro c hc
    rw [List.mem_reverse] at hc
    exact List.mem_takeWhile_imp hc

/-! ### Claim theorems -/

/-- C1 (code bug): a drain pass over complete newline-terminated lines
followed by a trailing unterminated line does not retain the partial
line — contrary to the `got_line` docstring "Emitted when a whole line
arrived", the non-blocking text iteration returns the unterminated tail
as a final line, so the drain emits it (stripped) immediately as an
extra event, and a subsequently arriving completion is emitted as a
separate command rather than being combined: draining `"abc\ndef\nghi"`
emits three events `abc`, `def`, `ghi` (not two), and a later drain of
`"jkl\n"` emits `jkl` on its own, never `ghijkl`. -/
theorem c1_partial_line_emitted_not_retained :
    QtFIFOReader.read_line ⟨true, false⟩ "abc\ndef\nghi".toList =
      Except.ok (⟨true, false⟩, ["abc".toList, "def".toList, "ghi".toList]) ∧
    QtFIFOReader.read_line ⟨true, false⟩ "jkl\n".toList =
      Except.ok (⟨true, false⟩, ["jkl".toList]) :=
  ⟨rfl, rfl⟩

/-- C2 (code bug): when `os.mkfifo` fails and the FIFO path does not
exist, `init` does not return normally in degraded mode — after catching
and reporting the `mkfifo` failure it still constructs `QtFIFOReader`,
whose `os.open` on the missing path raises an uncaught `OSError` that
escapes `init`. -/
theorem c2_init_mkfifo_failure_raises :
    init false false true = Except.error PyErr.osError := rfl

/-- C3 counterexample: a first `cleanup` on POSIX succeeds and closes the
FIFO file object; a second `cleanup` call then raises `ValueError`
(draining iterates the closed file object), so the second call is not a
safe no-op. -/
theorem c3_second_cleanup_raises_cex :
    cleanup true true ⟨true, false⟩ [] =
      Except.ok ⟨⟨false, true⟩, false, 0, []⟩ ∧
    cleanup true false ⟨false, true⟩ [] =
      Except.error PyErr.valueError :=
  ⟨rfl, rfl⟩

/-- C3 amended: on POSIX, any `cleanup` call made after a `cleanup` call
that completed raises `ValueError`, because the final drain iterates the
now-closed file object; shutdown is not idempotent (only the
`os.remove` step swallows its error, and only the non-POSIX early return
makes repeated calls no-ops). -/
theorem c3_cleanup_not_idempotent (fe fe2 : Bool) (st : QtFIFOReader)
    (avail avail2 : List Char) (r : CleanupResult)
    (h : cleanup true fe st avail = Except.ok r) :
    cleanup true fe2 r.readerState avail2 = Except.error PyErr.valueError := by
  have hclosed : r.readerState.fifoClosed = true := by
    by_cases hc : st.fifoClosed
    · simp [cleanup, QtFIFOReader.cleanup, hc] at h
    · simp [cleanup, QtFIFOReader.cleanup, hc] at h
      subst h
      rfl
  simp [cleanup, QtFIFOReader.cleanup, hclosed]

/-- Witness for C3's amended theorem: the second call after a completed
cleanup raises. -/
theorem c3_witness :
    cleanup true true
        ((⟨⟨false, true⟩, false, 0, []⟩ : CleanupResult).readerState)
        ['x'] =
      Except.error PyErr.valueError :=
  c3_cleanup_not_idempotent true true ⟨true, false⟩ [] ['x']
    ⟨⟨false, true⟩, false, 0, []⟩ rfl

/-- C4: with mode `last-focused` and no window registered, dispatching any
command produces the no-target error with zero execution-capability
invocations; the offending command is dropped with one report and the
remaining commands are still dispatched. -/
theorem c4_no_target_drops_command (reg : Objreg) (cmd : List Char)
    (rest : List (List Char)) (h : reg.lastFocused = none) :
    run_command "last-focused" reg cmd = Except.error PyErr.noTarget ∧
    dispatchAll "last-focused" reg (cmd :: rest) =
      ((dispatchAll "last-focused" reg rest).1,
       (dispatchAll "last-focused" reg rest).2 + 1) := by
  have h1 : run_command "last-focused" reg cmd = Except.error PyErr.noTarget := by
    simp [run_command, last_focused_window, h, Except.map]
  exact ⟨h1, by simp [dispatchAll, h1]⟩

/-- Witness for C4 with an empty registry. -/
theorem c4_witness :
    run_command "last-focused" ⟨none, some 3, some 4⟩ ['o'] =
      Except.error PyErr.noTarget ∧
    dispatchAll "last-focused" ⟨none, some 3, some 4⟩ (['o'] :: []) =
      ((dispatchAll "last-focused" ⟨none, some 3, some 4⟩ []).1,
       (dispatchAll "last-focused" ⟨none, some 3, some 4⟩ []).2 + 1) :=
  c4_no_target_drops_command ⟨none, some 3, some 4⟩ ['o'] [] rfl

/-- C5: on a platform without named-pipe support the guarded startup
attaches no reader, reports nothing and creates no FIFO, and `cleanup`
returns immediately, leaving the reader state and the FIFO file
untouched and emitting nothing. -/
theorem c5_non_posix_noop (preexisting removeFault mkfifoFault fe : Bool)
    (st : QtFIFOReader) (avail : List Char) :
    startupChannel false preexisting removeFault mkfifoFault =
      Except.ok ⟨false, 0, false⟩ ∧
    cleanup false fe st avail = Except.ok ⟨st, fe, 0, []⟩ :=
  ⟨rfl, rfl⟩

/-- C6: writing `"reload\n"` then `"scroll down\r\n"` yields exactly the
two commands `"reload"` and `"scroll down"` in order, terminators
stripped and content preserved, and both are dispatched to the resolved
window. -/
theorem c6_round_trip :
    QtFIFOReader.read_line ⟨true, false⟩
        ("reload\n".toList ++ "scroll down\r\n".toList) =
      Except.ok (⟨true, false⟩, ["reload".toList, "scroll down".toList]) ∧
    dispatchAll "last-focused" ⟨some 0, none, none⟩
        ["reload".toList, "scroll down".toList] =
      ([(0, "reload".toList), (0, "scroll down".toList)], 0) :=
  ⟨rfl, rfl⟩

/-- C7: writing the single byte `"\n"` yields exactly one emitted
command, the empty string (not zero commands), and it is dispatched. -/
theorem c7_newline_only_emits_empty :
    QtFIFOReader.read_line ⟨true, false⟩ ['\n'] =
      Except.ok (⟨true, false⟩, [[]]) ∧
    dispatchAll "last-focused" ⟨some 0, none, none⟩ [[]] =
      ([(0, ([] : List Char))], 0) :=
  ⟨rfl, rfl⟩

/-- C8: module-level `cleanup` with the FIFO file already missing
completes without an exception and reports nothing: the missing-file
`OSError` of `os.remove` is swallowed silently. -/
theorem c8_remove_missing_swallowed (st : QtFIFOReader) (avail : List Char)
    (h : st.fifoClosed = false) :
    cleanup true false st avail =
      Except.ok ⟨⟨false, true⟩, false, 0,
        (pyDrain [] avail).map rstripCRLF⟩ := by
  simp [cleanup, QtFIFOReader.cleanup, h]

/-- Witness for C8 on the empty reader. -/
theorem c8_witness :
    cleanup true false ⟨true, false⟩ [] =
      Except.ok ⟨⟨false, true⟩, false, 0,
        (pyDrain [] ([] : List Char)).map rstripCRLF⟩ :=
  c8_remove_missing_swallowed ⟨true, false⟩ [] rfl

/-- C9: for any configured mode other than the three recognized values,
`run_command` fails (the local `window` is never bound before use) and
the execution capability is invoked zero times; the command is dropped. -/
theorem c9_unknown_mode_unbound (winMode : String) (reg : Objreg)
    (cmd : List Char) (h1 : winMode ≠ "last-focused")
    (h2 : winMode ≠ "last-opened") (h3 : winMode ≠ "last-visible") :
    run_command winMode reg cmd = Except.error PyErr.unboundLocal ∧
    dispatchAll winMode reg [cmd] = ([], 1) := by
  have hr : run_command winMode reg cmd = Except.error PyErr.unboundLocal := by
    simp [run_command, h1, h2, h3]
  exact ⟨hr, by simp [dispatchAll, hr]⟩

/-- Witness for C9 with the unrecognized mode string `"window"`. -/
theorem c9_witness :
    run_command "window" ⟨some 1, some 2, some 3⟩ ['x'] =
      Except.error PyErr.unboundLocal ∧
    dispatchAll "window" ⟨some 1, some 2, some 3⟩ [['x']] = ([], 1) :=
  c9_unknown_mode_unbound "window" ⟨some 1, some 2, some 3⟩ ['x']
    (by decide) (by decide) (by decide)

/-- C10: every string emitted by a drain — whether from the readiness
callback `read_line` or from the reader's final `cleanup` drain, and
including the emission of a trailing unterminated line — ends with
neither `'\r'` nor `'\n'`, and it arises from a line the file iteration
yielded by removing only trailing terminator characters, all other
characters preserved unchanged. -/
theorem c10_emitted_lines_stripped (st st2 : QtFIFOReader)
    (avail e : List Char) (out : List (List Char))
    (h : QtFIFOReader.read_line st avail = Except.ok (st2, out) ∨
         QtFIFOReader.cleanup st avail = Except.ok (st2, out))
    (he : e ∈ out) :
    (∀ c, e.getLast? = some c → ¬(c = '\r' ∨ c = '\n')) ∧
    ∃ trail, (∀ c ∈ trail, c = '\r' ∨ c = '\n') ∧
      e ++ trail ∈ pyDrain [] avail := by
  have hout : out = (pyDrain [] avail).map rstripCRLF := by
    rcases h with h | h
    · by_cases hc : st.fifoClosed
      · rw [QtFIFOReader.read_line, if_pos hc] at h
        exact Except.noConfusion h
      · rw [QtFIFOReader.read_line, if_neg hc] at h
        injection h with h1
        injection h1 with ha hb
        exact hb.symm
    · by_cases hc : st.fifoClosed
      · rw [QtFIFOReader.cleanup, if_pos hc] at h
        exact Except.noConfusion h
      · rw [QtFIFOReader.cleanup, if_neg hc] at h
        injection h with h1
        injection h1 with ha hb
        exact hb.symm
  rw [hout] at he
  rcases List.mem_map.mp he with ⟨raw, hrawmem, hface⟩
  subst hface
  constructor
  · intro c hcl hdisj
    have hterm := rstripCRLF_last_not_term raw c hcl
    rcases hdisj with hdisj | hdisj <;> subst hdisj <;>
      simp [isTermChar] at hterm
  · refine ⟨(raw.reverse.takeWhile isTermChar).reverse, ?_, ?_⟩
    · intro c hc
      have hterm := (rstripCRLF_trail raw).2 c hc
      simp [isTermChar] at hterm
      exact hterm
    · rw [(rstripCRLF_trail raw).1]
      exact hrawmem

/-- Witness for C10 on the drained input `"ab\r\nxy"`, whose second
emission `xy` comes from the unterminated trailing line. -/
theorem c10_witness :
    (∀ c, (['x', 'y'] : List Char).getLast? = some c →
      ¬(c = '\r' ∨ c = '\n')) ∧
    ∃ trail, (∀ c ∈ trail, c = '\r' ∨ c = '\n') ∧
      ['x', 'y'] ++ trail ∈ pyDrain [] "ab\r\nxy".toList :=
  c10_emitted_lines_stripped ⟨true, false⟩ ⟨true, false⟩
    "ab\r\nxy".toList ['x', 'y'] [['a', 'b'], ['x', 'y']] (Or.inl rfl)
    (by decide)

end Fifo
